import Mathlib

/-!
Verification of the audio pipeline and playback controller of the
poetic-mirror repository (src/App.tsx, src/services/geminiService.ts).

The PCM pipeline is embedded as pure functions on lists:
  - a byte buffer is a `List Nat` (each entry a byte produced by `atob`);
  - `new Int16Array(data.buffer)` is `dataInt16`, which interprets the bytes
    as little-endian signed 16-bit samples and fails (JS throws a RangeError)
    when the byte length is not a multiple of 2;
  - `decodeAudioData` builds the per-channel normalized sample lists, with
    sample values in ℚ (the JS value `s / 32768.0` is exact in binary
    floating point for every 16-bit `s`, so ℚ is a faithful carrier).

The React component is embedded as a state machine: `AppState` holds the
`useState` fields plus the two refs, each UI handler is a function from a
state (and the outcome of its awaited remote call, passed as a parameter)
to a new state together with the list of externally visible actions it
performs (fetches issued, audio source nodes created / started / stopped).
Each async handler runs to completion in one step, which matches the
single-threaded event-loop execution described by the code.
-/

namespace PoeticMirror

/-- Little-endian signed 16-bit value of two bytes, as an `Int16Array` view
of the underlying buffer reads them (src/App.tsx `decodeAudioData`). -/
def int16OfBytes (lo hi : Nat) : Int :=
  let u := lo % 256 + 256 * (hi % 256)
  if u < 32768 then (u : Int) else (u : Int) - 65536

/-- Consecutive byte pairs of the buffer as signed 16-bit samples. -/
def pairSamples : List Nat → List Int
  | [] => []
  | [_] => []
  | lo :: hi :: rest => int16OfBytes lo hi :: pairSamples rest

/-- `new Int16Array(data.buffer)` (src/App.tsx, first line of
`decodeAudioData`): succeeds exactly when the buffer's byte length is a
multiple of 2; otherwise JS throws
`RangeError: byte length of Int16Array should be a multiple of 2`,
modelled as `none`. -/
def dataInt16 (bytes : List Nat) : Option (List Int) :=
  if bytes.length % 2 = 0 then some (pairSamples bytes) else none

/-- The per-sample normalization `dataInt16[k] / 32768.0` of
src/App.tsx `decodeAudioData`. -/
def normalizeSample (s : Int) : ℚ := (s : ℚ) / 32768

/-- One channel produced by the inner loop of src/App.tsx `decodeAudioData`:
`channelData[i] = dataInt16[i * numChannels + channel] / 32768.0` for
`i < frameCount`.  Out-of-range reads never happen for the frame count the
buffer actually has (proved below), so `getD _ 0` is only notation here. -/
def channelData (samples : List Int) (numChannels frameCount channel : Nat) :
    List ℚ :=
  (List.range frameCount).map fun i =>
    normalizeSample (samples.getD (i * numChannels + channel) 0)

/-- src/App.tsx `decodeAudioData` on the 16-bit sample list.  The JS code
computes `frameCount = dataInt16.length / numChannels` as a possibly
fractional number; `ctx.createBuffer` converts it to `unsigned long`
(truncating), and writes past the end of a `Float32Array` are silently
dropped, so the observable channel length is `⌊length / numChannels⌋`,
which is Nat division here. -/
def decodeAudioData (samples : List Int) (numChannels : Nat) :
    List (List ℚ) :=
  (List.range numChannels).map
    (channelData samples numChannels (samples.length / numChannels))

/-- JS `String.prototype.trim`: strips leading and trailing whitespace
(guard of src/App.tsx `handleSubmit`, result of geminiService
`getReflection`). -/
def jsTrim (s : String) : String :=
  String.mk (((s.data.dropWhile Char.isWhitespace).reverse.dropWhile
    Char.isWhitespace).reverse)

/-- The catch-block message of src/App.tsx `handleListen`. -/
def listenErrorMsg : String :=
  "Sorry, the reflection could not be spoken at this time."

/-- The catch-block message of src/App.tsx `handleSubmit`. -/
def submitErrorMsg : String :=
  "A reflection could not be generated. The engine is offline. Please try again."

/-- Outcome of the awaited text-to-speech call in geminiService
`getSpokenReflection`: the transport may fail, or a response arrives whose
optional chain `candidates?.[0]?.content?.parts?.[0]?.inlineData?.data`
yields either a base64 string or nothing. -/
inductive TtsOutcome
  | transportFail
  | response (data : Option String)
deriving DecidableEq

/-- The single error kind observable from geminiService
`getSpokenReflection`: a transport failure and a response with no audio are
both rethrown by its catch block as the same "Failed to get spoken
reflection" error. -/
inductive SynthError
  | synthesisFailed
deriving DecidableEq

/-- geminiService `getSpokenReflection`: returns the base64 audio or
throws.  A missing or empty `inlineData.data` (the JS falsy check
`!base64Audio`) raises inside the try block and is caught and rethrown by
the same catch as a transport failure. -/
def getSpokenReflection (outcome : TtsOutcome) : Except SynthError String :=
  match outcome with
  | .transportFail => .error .synthesisFailed
  | .response d =>
    match d with
    | none => .error .synthesisFailed
    | some a => if a = "" then .error .synthesisFailed else .ok a

/-- Outcome of the awaited generation call in geminiService
`getReflection`. -/
inductive GenOutcome
  | transportFail
  | response (text : String)
deriving DecidableEq

/-- The single error kind thrown out of geminiService `getReflection`. -/
inductive GenError
  | generationFailed
deriving DecidableEq

/-- geminiService `getReflection`: returns `response.text.trim()` or throws
one "Failed to get reflection" error kind. -/
def getReflection (outcome : GenOutcome) : Except GenError String :=
  match outcome with
  | .transportFail => .error .generationFailed
  | .response t => .ok (jsTrim t)

/-- The component state of src/App.tsx: the `useState` fields and the audio
source ref, plus bookkeeping for verification: `live` lists the audio
source nodes created and not yet stopped or ended (the playback handles),
`nextId` is a fresh-name counter for them.  `audioContextRef` carries no
state the claims depend on and is omitted. -/
structure AppState where
  userInput : String
  reflection : String
  isLoading : Bool
  error : Option String
  isSpeaking : Bool
  isFetchingAudio : Bool
  selectedVoice : String
  audioSource : Option Nat
  live : List Nat
  nextId : Nat
deriving DecidableEq

/-- Externally visible actions a handler performs, in execution order. -/
inductive Action
  | ttsFetch (text voice : String)
  | genFetch (text : String)
  | sourceCreated (id : Nat)
  | sourceStarted (id : Nat)
  | sourceStopped (id : Nat)
deriving DecidableEq

/-- src/App.tsx `stopPlayback`: if an audio source exists, clear its
`onended`, stop and disconnect it and null the ref; in all cases set
`isSpeaking` to false.  The stop-and-disconnect of the node removes it
from the live handles. -/
def stopPlayback (s : AppState) : AppState × List Action :=
  match s.audioSource with
  | some h =>
    ({ s with audioSource := none, isSpeaking := false,
              live := s.live.erase h },
     [Action.sourceStopped h])
  | none => ({ s with isSpeaking := false }, [])

/-- src/App.tsx `decode`: base64 string to byte array.  The browser builtin
`atob` is an environment parameter giving the char codes of the decoded
binary string; `decode` copies them into the byte buffer. -/
def decode (atob : String → List Nat) (base64 : String) : List Nat :=
  atob base64

/-- src/App.tsx `handleListen`, one full execution of the async handler;
`outcome` is the result of the awaited text-to-speech call.  If already
speaking it only stops playback (no fetch); if a fetch is in flight it
returns; otherwise it fetches, decodes (`Int16Array` construction may
throw on an odd-length buffer, joining the catch path), builds the buffer,
then creates, connects and starts a source node, stores it in the ref and
sets `isSpeaking`; the catch path records the error message and clears
`isSpeaking`; the finally clause clears `isFetchingAudio`. -/
def handleListen (atob : String → List Nat) (text : String)
    (outcome : TtsOutcome) (s : AppState) : AppState × List Action :=
  if s.isSpeaking then stopPlayback s
  else if s.isFetchingAudio then (s, [])
  else
    let s1 := { s with isFetchingAudio := true, error := none }
    match getSpokenReflection outcome with
    | .error _ =>
      ({ s1 with error := some listenErrorMsg, isSpeaking := false,
                 isFetchingAudio := false },
       [Action.ttsFetch text s.selectedVoice])
    | .ok base64Audio =>
      match dataInt16 (decode atob base64Audio) with
      | none =>
        ({ s1 with error := some listenErrorMsg, isSpeaking := false,
                   isFetchingAudio := false },
         [Action.ttsFetch text s.selectedVoice])
      | some samples =>
        let _audioBuffer := decodeAudioData samples 1
        let h := s1.nextId
        ({ s1 with audioSource := some h, isSpeaking := true,
                   isFetchingAudio := false, live := s1.live ++ [h],
                   nextId := h + 1 },
         [Action.ttsFetch text s.selectedVoice, Action.sourceCreated h,
          Action.sourceStarted h])

/-- src/App.tsx `handleSubmit`, one full execution: guard on empty trimmed
input or an in-flight request, stop any ongoing speech, set `isLoading`,
clear error and reflection, await `getReflection`, then either display the
result and clear the input or record the error message; the finally clause
clears `isLoading`. -/
def handleSubmit (outcome : GenOutcome) (s : AppState) :
    AppState × List Action :=
  if (jsTrim s.userInput == "") || s.isLoading then (s, [])
  else
    let stopped := stopPlayback s
    let s2 := { stopped.1 with isLoading := true, error := none,
                               reflection := "" }
    match getReflection outcome with
    | .ok result =>
      ({ s2 with reflection := result, userInput := "", isLoading := false },
       stopped.2 ++ [Action.genFetch s.userInput])
    | .error _ =>
      ({ s2 with error := some submitErrorMsg, isLoading := false },
       stopped.2 ++ [Action.genFetch s.userInput])

/-- The `onended` callback installed on a started source in `handleListen`:
set `isSpeaking` to false and null the ref.  It only ever fires for the
currently playing node (a manual stop clears `onended` first), and the
ended node ceases to be a live handle. -/
def onEnded (s : AppState) : AppState :=
  match s.audioSource with
  | some h =>
    { s with isSpeaking := false, audioSource := none,
             live := s.live.erase h }
  | none => s

/-- The UI events that drive the component. -/
inductive Event
  | listen (text : String) (outcome : TtsOutcome)
  | submit (outcome : GenOutcome)
  | ended
  | input (text : String)
  | voice (v : String)

/-- One step of the component: a UI event handled to completion.  The
textarea is disabled while `isLoading`; the voice selector is disabled
while speaking or fetching audio. -/
def step (atob : String → List Nat) (s : AppState) :
    Event → AppState × List Action
  | .listen text outcome => handleListen atob text outcome s
  | .submit outcome => handleSubmit outcome s
  | .ended => (onEnded s, [])
  | .input t =>
    if s.isLoading then (s, []) else ({ s with userInput := t }, [])
  | .voice v =>
    if s.isSpeaking || s.isFetchingAudio then (s, [])
    else ({ s with selectedVoice := v }, [])

/-- The initial component state of src/App.tsx. -/
def initState : AppState :=
  { userInput := "", reflection := "", isLoading := false, error := none,
    isSpeaking := false, isFetchingAudio := false, selectedVoice := "Kore",
    audioSource := none, live := [], nextId := 0 }

/-- States reachable from the initial state by UI events. -/
inductive Reachable (atob : String → List Nat) : AppState → Prop
  | init : Reachable atob initState
  | next {s : AppState} (e : Event) :
      Reachable atob s → Reachable atob (step atob s e).1

/-- The handle invariant: the source ref tracks the unique live node, and
`isSpeaking` mirrors whether one exists. -/
def handleInv (s : AppState) : Prop :=
  s.isSpeaking = s.audioSource.isSome ∧
  s.live = (match s.audioSource with | some h => [h] | none => [])

/-- Whether a trace contains a source-node creation. -/
def createsSource (acts : List Action) : Bool :=
  acts.any fun a => match a with
    | .sourceCreated _ => true
    | _ => false

/-- Whether a trace contains a text-to-speech fetch. -/
def issuesTtsFetch (acts : List Action) : Bool :=
  acts.any fun a => match a with
    | .ttsFetch _ _ => true
    | _ => false

/-- The number of generation requests in a trace. -/
def countGenFetch (acts : List Action) : Nat :=
  acts.countP fun a => match a with
    | .genFetch _ => true
    | _ => false

/-- Whether one full `handleListen` execution started from a non-speaking,
non-fetching state takes the catch path: the fetch fails or the decoded
buffer has odd byte length. -/
def listenFails (atob : String → List Nat) (outcome : TtsOutcome) : Bool :=
  match getSpokenReflection outcome with
  | .error _ => true
  | .ok b => (dataInt16 (decode atob b)).isNone

/-- A concrete playing state, used by witnesses. -/
def playingState : AppState :=
  { userInput := "", reflection := "r", isLoading := false, error := none,
    isSpeaking := true, isFetchingAudio := false, selectedVoice := "Kore",
    audioSource := some 0, live := [0], nextId := 1 }

/-- A concrete playing state with pending input, used by witnesses. -/
def playingInputState : AppState :=
  { playingState with userInput := "hi" }

/-- A concrete idle state with pending input, used by witnesses. -/
def idleInputState : AppState :=
  { initState with userInput := "hi" }


theorem getD_range_map {α : Type} (f : Nat → α) (n c : Nat) (d : α)
    (hc : c < n) : ((List.range n).map f).getD c d = f c := by
  rw [List.getD_eq_getElem?_getD, List.getElem?_map, List.getElem?_range hc]
  rfl

theorem pairSamples_length (bytes : List Nat) :
    (pairSamples bytes).length = bytes.length / 2 := by
  match bytes with
  | [] => simp [pairSamples]
  | [b] => simp [pairSamples]
  | lo :: hi :: rest =>
    have ih := pairSamples_length rest
    simp [pairSamples, ih]
    omega

/-- C1: for every 16-bit sample list and channel count C ≥ 1,
`decodeAudioData` yields C deinterleaved channels, each of length
⌊len / C⌋, and entry i of channel c is the interleaved sample at index
i * C + c (an in-bounds index) divided by 32768. -/
theorem decodeAudioData_deinterleave (d : List Int) (C c i : Nat)
    (_hC : 1 ≤ C) (hc : c < C) (hi : i < d.length / C) :
    (decodeAudioData d C).length = C ∧
    (decodeAudioData d C).getD c [] = channelData d C (d.length / C) c ∧
    (channelData d C (d.length / C) c).length = d.length / C ∧
    i * C + c < d.length ∧
    (channelData d C (d.length / C) c).getD i 0 =
      normalizeSample (d.getD (i * C + c) 0) := by
  refine ⟨by simp [decodeAudioData], ?_, by simp [channelData], ?_, ?_⟩
  · unfold decodeAudioData
    exact getD_range_map _ _ _ _ hc
  · have e1 : i * C + C = (i + 1) * C := (Nat.succ_mul i C).symm
    have h2 : (i + 1) * C ≤ d.length / C * C := Nat.mul_le_mul_right C hi
    have h3 : d.length / C * C ≤ d.length := Nat.div_mul_le_self _ _
    omega
  · unfold channelData
    exact getD_range_map _ _ _ _ hi

/-- C1 witness: the single-sample, single-channel instance. -/
theorem decodeAudioData_deinterleave_witness :
    (1 ≤ 1 ∧ 0 < 1 ∧ 0 < [(16384 : Int)].length / 1) ∧
    ((decodeAudioData [(16384 : Int)] 1).length = 1 ∧
     (decodeAudioData [(16384 : Int)] 1).getD 0 [] =
       channelData [(16384 : Int)] 1 ([(16384 : Int)].length / 1) 0 ∧
     (channelData [(16384 : Int)] 1 ([(16384 : Int)].length / 1) 0).length =
       [(16384 : Int)].length / 1 ∧
     0 * 1 + 0 < [(16384 : Int)].length ∧
     (channelData [(16384 : Int)] 1 ([(16384 : Int)].length / 1) 0).getD 0 0 =
       normalizeSample ([(16384 : Int)].getD (0 * 1 + 0) 0)) :=
  ⟨by decide,
   decodeAudioData_deinterleave [(16384 : Int)] 1 0 0 (by decide) (by decide)
     (by decide)⟩

/-- C2 counterexample: a decoded buffer of odd byte length (one byte) makes
the sample-construction step fail (`Int16Array` construction throws), it
does not truncate to ⌊1/2⌋ = 0 samples. -/
theorem dataInt16_oddLength_fails :
    [0].length % 2 = 1 ∧ dataInt16 [0] = none := by decide

/-- C2 amended: the decode-to-samples step is total only for buffers of even
byte length, where it yields exactly ⌊byteLength / 2⌋ samples; for odd byte
length the `Int16Array` construction raises an error and no sample sequence
is produced. -/
theorem dataInt16_evenLength_total (bytes : List Nat)
    (h : bytes.length % 2 = 0) :
    dataInt16 bytes = some (pairSamples bytes) ∧
    (pairSamples bytes).length = bytes.length / 2 := by
  refine ⟨?_, pairSamples_length bytes⟩
  simp [dataInt16, h]

/-- C2 witness: a two-byte buffer decodes to one sample. -/
theorem dataInt16_evenLength_total_witness :
    [0, 128].length % 2 = 0 ∧
    (dataInt16 [0, 128] = some (pairSamples [0, 128]) ∧
     (pairSamples [0, 128]).length = [0, 128].length / 2) :=
  ⟨by decide, dataInt16_evenLength_total [0, 128] (by decide)⟩

/-- C4: every signed 16-bit sample normalizes into [-1, 1). -/
theorem normalizeSample_bounds (s : Int) (h1 : -32768 ≤ s) (h2 : s ≤ 32767) :
    -1 ≤ normalizeSample s ∧ normalizeSample s < 1 := by
  have hq1 : (-32768 : ℚ) ≤ (s : ℚ) := by exact_mod_cast h1
  have hq2 : (s : ℚ) ≤ 32767 := by exact_mod_cast h2
  unfold normalizeSample
  constructor <;> linarith

/-- C4 witness: the extreme sample -32768 normalizes to a value in [-1, 1). -/
theorem normalizeSample_bounds_witness :
    (-32768 ≤ (-32768 : Int) ∧ (-32768 : Int) ≤ 32767) ∧
    (-1 ≤ normalizeSample (-32768) ∧ normalizeSample (-32768) < 1) :=
  ⟨by decide, normalizeSample_bounds (-32768) (by decide) (by decide)⟩

theorem stopPlayback_handleInv (s : AppState) (h : handleInv s) :
    handleInv (stopPlayback s).1 := by
  obtain ⟨h1, h2⟩ := h
  unfold stopPlayback
  cases hsrc : s.audioSource with
  | none =>
    rw [hsrc] at h2
    exact ⟨rfl, h2⟩
  | some hd =>
    rw [hsrc] at h2
    refine ⟨rfl, ?_⟩
    simp [h2]

theorem handleListen_handleInv (atob : String → List Nat) (text : String)
    (outcome : TtsOutcome) (s : AppState) (h : handleInv s) :
    handleInv (handleListen atob text outcome s).1 := by
  obtain ⟨h1, h2⟩ := h
  unfold handleListen
  cases hs : s.isSpeaking with
  | true =>
    simp only [hs, if_true]
    exact stopPlayback_handleInv s ⟨h1, h2⟩
  | false =>
    have hsrc : s.audioSource = none := by
      cases hsrc : s.audioSource with
      | none => rfl
      | some hd => rw [hsrc, hs] at h1; simp at h1
    have hlive : s.live = [] := by rw [hsrc] at h2; exact h2
    cases hf : s.isFetchingAudio with
    | true =>
      simp only [hs, hf, Bool.false_eq_true, if_false, if_true]
      exact ⟨h1, h2⟩
    | false =>
      simp only [hs, hf, Bool.false_eq_true, if_false]
      cases hout : getSpokenReflection outcome with
      | error e =>
        simp only [hout]
        exact ⟨by simp [hsrc], by simp [hsrc, hlive]⟩
      | ok b =>
        simp only [hout]
        cases hdec : dataInt16 (decode atob b) with
        | none =>
          simp only [hdec]
          exact ⟨by simp [hsrc], by simp [hsrc, hlive]⟩
        | some samples =>
          simp only [hdec]
          exact ⟨by simp, by simp [hlive]⟩

theorem handleSubmit_handleInv (outcome : GenOutcome) (s : AppState)
    (h : handleInv s) : handleInv (handleSubmit outcome s).1 := by
  unfold handleSubmit
  cases hg : ((jsTrim s.userInput == "") || s.isLoading) with
  | true =>
    simp only [hg, if_true]
    exact h
  | false =>
    simp only [hg, Bool.false_eq_true, if_false]
    obtain ⟨k1, k2⟩ := stopPlayback_handleInv s h
    cases hout : getReflection outcome with
    | error e =>
      simp only [hout]
      exact ⟨k1, k2⟩
    | ok result =>
      simp only [hout]
      exact ⟨k1, k2⟩

theorem onEnded_handleInv (s : AppState) (h : handleInv s) :
    handleInv (onEnded s) := by
  obtain ⟨h1, h2⟩ := h
  unfold onEnded
  cases hsrc : s.audioSource with
  | none => exact ⟨h1.trans (by rw [hsrc]), by rw [hsrc] at h2; rw [h2, hsrc]⟩
  | some hd =>
    rw [hsrc] at h2
    refine ⟨rfl, ?_⟩
    simp [h2]

theorem step_handleInv (atob : String → List Nat) (s : AppState) (e : Event)
    (h : handleInv s) : handleInv (step atob s e).1 := by
  cases e with
  | listen text outcome => exact handleListen_handleInv atob text outcome s h
  | submit outcome => exact handleSubmit_handleInv outcome s h
  | ended => exact onEnded_handleInv s h
  | input t =>
    simp only [step]
    split
    · exact h
    · exact ⟨h.1, h.2⟩
  | voice v =>
    simp only [step]
    split
    · exact h
    · exact ⟨h.1, h.2⟩

theorem reachable_handleInv (atob : String → List Nat) (s : AppState)
    (h : Reachable atob s) : handleInv s := by
  induction h with
  | init => exact ⟨rfl, rfl⟩
  | next e hr ih => exact step_handleInv atob _ e ih


theorem createsSource_stopPlayback (s : AppState) :
    createsSource (stopPlayback s).2 = false := by
  unfold stopPlayback
  cases s.audioSource <;> simp [createsSource]

theorem createsSource_append (l1 l2 : List Action) :
    createsSource (l1 ++ l2) = (createsSource l1 || createsSource l2) := by
  unfold createsSource
  exact List.any_append

theorem createsSource_genFetch (t : String) :
    createsSource [Action.genFetch t] = false := rfl

theorem createsSource_step_isSpeaking (atob : String → List Nat)
    (s : AppState) (e : Event)
    (hcr : createsSource (step atob s e).2 = true) :
    s.isSpeaking = false := by
  cases e with
  | listen text outcome =>
    cases hs : s.isSpeaking with
    | false => rfl
    | true =>
      exfalso
      simp only [step] at hcr
      unfold handleListen at hcr
      rw [hs] at hcr
      simp only [if_true] at hcr
      rw [createsSource_stopPlayback] at hcr
      exact Bool.false_ne_true hcr
  | submit outcome =>
    exfalso
    simp only [step] at hcr
    unfold handleSubmit at hcr
    split at hcr
    · exact Bool.false_ne_true hcr
    · split at hcr <;>
      · rw [createsSource_append, createsSource_stopPlayback,
          createsSource_genFetch] at hcr
        exact Bool.false_ne_true hcr
  | ended =>
    exfalso
    simp only [step] at hcr
    exact Bool.false_ne_true hcr
  | input t =>
    exfalso
    simp only [step] at hcr
    split at hcr <;> exact Bool.false_ne_true hcr
  | voice v =>
    exfalso
    simp only [step] at hcr
    split at hcr <;> exact Bool.false_ne_true hcr


/-- C3: invoking handleListen while playback is active behaves exactly as
stopPlayback: the current source is stopped, the controller ends idle (not
speaking, no source, not fetching), and no text-to-speech fetch is issued
on that call. -/
theorem handleListen_toggle_stops (atob : String → List Nat) (text : String)
    (outcome : TtsOutcome) (s : AppState) (hs : s.isSpeaking = true)
    (hf : s.isFetchingAudio = false) :
    handleListen atob text outcome s = stopPlayback s ∧
    (handleListen atob text outcome s).1.isSpeaking = false ∧
    (handleListen atob text outcome s).1.audioSource = none ∧
    (handleListen atob text outcome s).1.isFetchingAudio = false ∧
    issuesTtsFetch (handleListen atob text outcome s).2 = false := by
  have heq : handleListen atob text outcome s = stopPlayback s := by
    unfold handleListen
    rw [hs]
    simp only [if_true]
  refine ⟨heq, ?_, ?_, ?_, ?_⟩ <;> rw [heq] <;> unfold stopPlayback <;>
    cases hsrc : s.audioSource <;> simp [issuesTtsFetch, hf, hsrc]

/-- C3 witness: toggling from a concrete playing state. -/
theorem handleListen_toggle_stops_witness :
    (playingState.isSpeaking = true ∧ playingState.isFetchingAudio = false) ∧
    (handleListen (fun _ => []) "r" TtsOutcome.transportFail playingState =
       stopPlayback playingState ∧
     (handleListen (fun _ => []) "r" TtsOutcome.transportFail
         playingState).1.isSpeaking = false ∧
     (handleListen (fun _ => []) "r" TtsOutcome.transportFail
         playingState).1.audioSource = none ∧
     (handleListen (fun _ => []) "r" TtsOutcome.transportFail
         playingState).1.isFetchingAudio = false ∧
     issuesTtsFetch ((handleListen (fun _ => []) "r" TtsOutcome.transportFail
         playingState).2) = false) :=
  ⟨by decide,
   handleListen_toggle_stops (fun _ => []) "r" TtsOutcome.transportFail
     playingState rfl rfl⟩

/-- C5: in every reachable state at most one playback handle is live, and
any step that creates a new source node starts from a state with no live
handle: the previous handle has been stopped and released first. -/
theorem at_most_one_handle (atob : String → List Nat) (s : AppState)
    (e : Event) (hr : Reachable atob s) :
    s.live.length ≤ 1 ∧
    (createsSource (step atob s e).2 = true → s.live = []) := by
  obtain ⟨h1, h2⟩ := reachable_handleInv atob s hr
  constructor
  · rw [h2]; cases s.audioSource <;> simp
  · intro hcr
    have hs := createsSource_step_isSpeaking atob s e hcr
    cases hsrc : s.audioSource with
    | some hd => rw [hsrc] at h1; rw [hs] at h1; simp at h1
    | none => rw [hsrc] at h2; exact h2

/-- C5 witness: the initial state, with a step that does create a source. -/
theorem at_most_one_handle_witness :
    initState.live.length ≤ 1 ∧ initState.live = [] :=
  ⟨(at_most_one_handle (fun _ => [0, 0]) initState
      (Event.listen "t" (TtsOutcome.response (some "x"))) Reachable.init).1,
   (at_most_one_handle (fun _ => [0, 0]) initState
      (Event.listen "t" (TtsOutcome.response (some "x"))) Reachable.init).2
     (by decide)⟩

/-- C6: submitting non-empty trimmed text while not loading and while a
source is playing stops that source first and then issues exactly one
generation request: the stop action precedes the fetch in the trace, and
the resulting state holds no source. -/
theorem handleSubmit_stops_before_fetch (outcome : GenOutcome) (s : AppState)
    (hdl : Nat) (hin : jsTrim s.userInput ≠ "") (hload : s.isLoading = false)
    (hsrc : s.audioSource = some hdl) :
    (handleSubmit outcome s).2 =
      [Action.sourceStopped hdl, Action.genFetch s.userInput] ∧
    (handleSubmit outcome s).1.audioSource = none ∧
    (handleSubmit outcome s).1.isSpeaking = false := by
  have hg : ((jsTrim s.userInput == "") || s.isLoading) = false := by
    simp [hin, hload]
  unfold handleSubmit
  simp only [hg, Bool.false_eq_true, if_false]
  cases hout : getReflection outcome <;>
    simp [hout, stopPlayback, hsrc]

/-- C6 witness: submitting from a concrete playing state with input. -/
theorem handleSubmit_stops_before_fetch_witness :
    (jsTrim playingInputState.userInput ≠ "" ∧
     playingInputState.isLoading = false ∧
     playingInputState.audioSource = some 0) ∧
    ((handleSubmit GenOutcome.transportFail playingInputState).2 =
       [Action.sourceStopped 0, Action.genFetch playingInputState.userInput] ∧
     (handleSubmit GenOutcome.transportFail
         playingInputState).1.audioSource = none ∧
     (handleSubmit GenOutcome.transportFail
         playingInputState).1.isSpeaking = false) :=
  ⟨⟨by decide, rfl, rfl⟩,
   handleSubmit_stops_before_fetch GenOutcome.transportFail playingInputState
     0 (by decide) rfl rfl⟩

/-- C7: a synthesis response with no audio payload fails with the same
synthesisFailed error kind as a transport failure; handled from an idle
state, playback stays idle (not speaking, no source, live handles
unchanged), the error message is recorded, and no source node is
created. -/
theorem noAudio_synthesisFailed_idle (atob : String → List Nat)
    (text : String) (s : AppState) (hs : s.isSpeaking = false)
    (hf : s.isFetchingAudio = false) (hsrc : s.audioSource = none) :
    getSpokenReflection (TtsOutcome.response none) =
      Except.error SynthError.synthesisFailed ∧
    getSpokenReflection TtsOutcome.transportFail =
      Except.error SynthError.synthesisFailed ∧
    (handleListen atob text (TtsOutcome.response none) s).1.isSpeaking =
      false ∧
    (handleListen atob text (TtsOutcome.response none) s).1.audioSource =
      none ∧
    (handleListen atob text (TtsOutcome.response none) s).1.live = s.live ∧
    (handleListen atob text (TtsOutcome.response none) s).1.error =
      some listenErrorMsg ∧
    createsSource ((handleListen atob text (TtsOutcome.response none) s).2) =
      false := by
  unfold handleListen
  simp only [hs, hf, Bool.false_eq_true, if_false]
  simp only [getSpokenReflection]
  simp [hsrc, createsSource]

/-- C7 witness: the no-audio response handled from the initial state. -/
theorem noAudio_synthesisFailed_idle_witness :
    (initState.isSpeaking = false ∧ initState.isFetchingAudio = false ∧
     initState.audioSource = none) ∧
    (getSpokenReflection (TtsOutcome.response none) =
       Except.error SynthError.synthesisFailed ∧
     getSpokenReflection TtsOutcome.transportFail =
       Except.error SynthError.synthesisFailed ∧
     (handleListen (fun _ => []) "r" (TtsOutcome.response none)
         initState).1.isSpeaking = false ∧
     (handleListen (fun _ => []) "r" (TtsOutcome.response none)
         initState).1.audioSource = none ∧
     (handleListen (fun _ => []) "r" (TtsOutcome.response none)
         initState).1.live = initState.live ∧
     (handleListen (fun _ => []) "r" (TtsOutcome.response none)
         initState).1.error = some listenErrorMsg ∧
     createsSource ((handleListen (fun _ => []) "r" (TtsOutcome.response none)
         initState).2) = false) :=
  ⟨⟨rfl, rfl, rfl⟩,
   noAudio_synthesisFailed_idle (fun _ => []) "r" initState rfl rfl rfl⟩

/-- C8: when the generation endpoint fails, the displayed state has no
reflection, carries the error message, isLoading is back to false, and
exactly one generation request was issued (no retry). -/
theorem handleSubmit_failure_state (s : AppState)
    (hin : jsTrim s.userInput ≠ "") (hload : s.isLoading = false) :
    (handleSubmit GenOutcome.transportFail s).1.reflection = "" ∧
    (handleSubmit GenOutcome.transportFail s).1.error = some submitErrorMsg ∧
    (handleSubmit GenOutcome.transportFail s).1.isLoading = false ∧
    countGenFetch ((handleSubmit GenOutcome.transportFail s).2) = 1 := by
  have hg : ((jsTrim s.userInput == "") || s.isLoading) = false := by
    simp [hin, hload]
  unfold handleSubmit
  simp only [hg, Bool.false_eq_true, if_false]
  simp only [getReflection]
  unfold countGenFetch stopPlayback
  cases s.audioSource <;> simp

/-- C8 witness: a failing submission from a concrete idle state with
input. -/
theorem handleSubmit_failure_state_witness :
    (jsTrim idleInputState.userInput ≠ "" ∧
     idleInputState.isLoading = false) ∧
    ((handleSubmit GenOutcome.transportFail idleInputState).1.reflection =
       "" ∧
     (handleSubmit GenOutcome.transportFail idleInputState).1.error =
       some submitErrorMsg ∧
     (handleSubmit GenOutcome.transportFail idleInputState).1.isLoading =
       false ∧
     countGenFetch ((handleSubmit GenOutcome.transportFail
         idleInputState).2) = 1) :=
  ⟨⟨by decide, rfl⟩,
   handleSubmit_failure_state idleInputState (by decide) rfl⟩

/-- C9: stopping when already idle (no source, not speaking) is a no-op:
the state is unchanged and no handle operation is performed. -/
theorem stopPlayback_idle_noop (s : AppState) (hsrc : s.audioSource = none)
    (hs : s.isSpeaking = false) :
    stopPlayback s = (s, []) := by
  unfold stopPlayback
  simp only [hsrc]
  rw [← hs, ← hsrc]

/-- C9 witness: stopping in the initial state does nothing. -/
theorem stopPlayback_idle_noop_witness :
    (initState.audioSource = none ∧ initState.isSpeaking = false) ∧
    stopPlayback initState = (initState, []) :=
  ⟨⟨rfl, rfl⟩, stopPlayback_idle_noop initState rfl rfl⟩

/-- C10: on the handleListen error path (failed fetch or undecodable
payload) only error, isSpeaking and isFetchingAudio change: the
reflection, the user input and every other field are left unchanged. -/
theorem handleListen_failure_frame (atob : String → List Nat)
    (text : String) (outcome : TtsOutcome) (s : AppState)
    (hs : s.isSpeaking = false) (hf : s.isFetchingAudio = false)
    (hfail : listenFails atob outcome = true) :
    (handleListen atob text outcome s).1.reflection = s.reflection ∧
    (handleListen atob text outcome s).1.userInput = s.userInput ∧
    (handleListen atob text outcome s).1.isLoading = s.isLoading ∧
    (handleListen atob text outcome s).1.selectedVoice = s.selectedVoice ∧
    (handleListen atob text outcome s).1.audioSource = s.audioSource ∧
    (handleListen atob text outcome s).1.live = s.live ∧
    (handleListen atob text outcome s).1.nextId = s.nextId ∧
    (handleListen atob text outcome s).1.error = some listenErrorMsg ∧
    (handleListen atob text outcome s).1.isSpeaking = false ∧
    (handleListen atob text outcome s).1.isFetchingAudio = false := by
  unfold handleListen
  simp only [hs, hf, Bool.false_eq_true, if_false]
  unfold listenFails at hfail
  cases hout : getSpokenReflection outcome with
  | error e =>
    simp only [hout]
    simp
  | ok b =>
    rw [hout] at hfail
    simp only [hout]
    have hdec : dataInt16 (decode atob b) = none :=
      Option.isNone_iff_eq_none.mp hfail
    simp only [hdec]
    simp

/-- C10 witness: a transport failure from the initial state. -/
theorem handleListen_failure_frame_witness :
    (initState.isSpeaking = false ∧ initState.isFetchingAudio = false ∧
     listenFails (fun _ => []) TtsOutcome.transportFail = true) ∧
    ((handleListen (fun _ => []) "r" TtsOutcome.transportFail
         initState).1.reflection = initState.reflection ∧
     (handleListen (fun _ => []) "r" TtsOutcome.transportFail
         initState).1.userInput = initState.userInput ∧
     (handleListen (fun _ => []) "r" TtsOutcome.transportFail
         initState).1.isLoading = initState.isLoading ∧
     (handleListen (fun _ => []) "r" TtsOutcome.transportFail
         initState).1.selectedVoice = initState.selectedVoice ∧
     (handleListen (fun _ => []) "r" TtsOutcome.transportFail
         initState).1.audioSource = initState.audioSource ∧
     (handleListen (fun _ => []) "r" TtsOutcome.transportFail
         initState).1.live = initState.live ∧
     (handleListen (fun _ => []) "r" TtsOutcome.transportFail
         initState).1.nextId = initState.nextId ∧
     (handleListen (fun _ => []) "r" TtsOutcome.transportFail
         initState).1.error = some listenErrorMsg ∧
     (handleListen (fun _ => []) "r" TtsOutcome.transportFail
         initState).1.isSpeaking = false ∧
     (handleListen (fun _ => []) "r" TtsOutcome.transportFail
         initState).1.isFetchingAudio = false) :=
  ⟨⟨rfl, rfl, rfl⟩,
   handleListen_failure_frame (fun _ => []) "r" TtsOutcome.transportFail
     initState rfl rfl rfl⟩

end PoeticMirror
